import Mathlib

/-!
Verification of the access-declaration core of `legion_test` (src/src/main.rs).

The repository wraps a unit of logic implementing its `System` trait as a
`SystemWrapper`, an adapter implementing the external scheduler interface
`Runnable` with declared permission sets, an archetype filter, and a
per-world command buffer.  The shallow embedding below follows the source
file function by function.  Types that come from the external `legion` and
`bit_set` crates (whose implementations are not part of this repository)
are modelled from the specification and are marked as such in their doc
comments.
-/

/-- Modelled from the spec: an identity is an opaque, totally-ordered,
hashable token naming one resource type or one component type
(`ResourceTypeId` / `ComponentTypeId` in the source).  Modelled as `Nat`. -/
abbrev Identity := Nat

/-- Modelled from the spec: `legion::world::Permissions<T>`, an ordered pair
of a read-set and a write-set over a generic identity type (spec section 3,
Permission Set).  The implementation lives in the external `legion` crate,
so the sets are modelled directly as finite sets of identities. -/
structure Permissions where
  reads : Finset Identity
  writes : Finset Identity
deriving DecidableEq

instance : Inhabited Permissions := ⟨⟨∅, ∅⟩⟩

/-- Modelled from the spec: `Permissions::push_read` records read access to
one identity (spec 4.1: a Read declaration of identity T yields
reads = \x7bT\x7d, writes = \x7b\x7d). -/
def Permissions.push_read (p : Permissions) (t : Identity) : Permissions :=
  ⟨insert t p.reads, p.writes⟩

/-- Modelled from the spec: `Permissions::push` records write access to one
identity (spec 4.1: a Write declaration yields reads = \x7b\x7d,
writes = \x7bT\x7d). -/
def Permissions.push (p : Permissions) (t : Identity) : Permissions :=
  ⟨p.reads, insert t p.writes⟩

/-- Modelled from the spec: `Permissions::add` merges another permission set
into this one; spec 4.1 says composition merges `reads` and `writes` by set
union, duplicates idempotent. -/
def Permissions.add (p q : Permissions) : Permissions :=
  ⟨p.reads ∪ q.reads, p.writes ∪ q.writes⟩

/-- Modelled from the spec: the archetype filter bitset (`bit_set::BitSet`
in the source), a set of archetype identifiers. -/
abbrev BitSet := Finset Nat

/-- Modelled from the spec: `legion::world::ArchetypeAccess`, the
"bitset-or-all" value returned by `accessed_archetypes()` (spec 4.2 edge
case and section 6). -/
inductive ArchetypeAccess where
  | all
  | some (bitset : BitSet)
deriving DecidableEq

/-- The world, as far as this core observes it: an identifier plus the
storage engine enumeration of archetypes, each archetype described by the
set of component identities it owns (spec section 6, storage interface). -/
structure World where
  id : Nat
  archetypes : List (Finset Identity)
deriving DecidableEq

/-- The external resource collection; its contents are never inspected by
the code under verification, so it is kept abstract as a list. -/
abbrev Resources := List Identity

/-- The shapes implementing the `SystemData` trait in the source, one
constructor per `impl` block:
`()` (line 62), `Query<V, F>` (lines 66-76), `Read<T>` (lines 78-89) and
`Write<T>` (lines 91-102).  A query carries the permissions required by its
view `V` (`V::requires_permissions()`, external to the repository) and the
set of component identities its entity filter requires, both opaque to the
wrapper code. -/
inductive SystemData where
  | unit
  | query (viewPerms : Permissions) (req : Finset Identity)
  | read (t : Identity)
  | write (t : Identity)
deriving DecidableEq

/-- `SystemData::component_permissions` per impl: the trait default (lines
50-52) returns `Permissions::default()`; only the `Query` impl overrides
it, returning `V::requires_permissions()` (line 74). -/
def SystemData.component_permissions : SystemData → Permissions
  | .unit => default
  | .query viewPerms _ => viewPerms
  | .read _ => default
  | .write _ => default

/-- `SystemData::resource_permissions` per impl: the trait default (lines
54-56) returns `Permissions::default()`; `Read<T>` pushes a read of T
(lines 84-88); `Write<T>` pushes a write of T (lines 97-101). -/
def SystemData.resource_permissions : SystemData → Permissions
  | .unit => default
  | .query _ _ => default
  | .read t => Permissions.push_read default t
  | .write t => Permissions.push default t

/-- `SystemData::filter_archetypes`: the trait default body (lines 58-59)
is empty, and no impl in the source overrides it — in particular the
`Query` impl (lines 66-76) does not.  The bitset is therefore returned
unchanged for every shape. -/
def SystemData.filter_archetypes : SystemData → World → BitSet → BitSet :=
  fun _ _ b => b

/-- All identities a declaration mentions, across both categories. -/
def SystemData.identities (e : SystemData) : Finset Identity :=
  e.resource_permissions.reads ∪ e.resource_permissions.writes ∪
    e.component_permissions.reads ∪ e.component_permissions.writes

/-- A type usable as a `SystemWrapper` data parameter `D`: either one of
the four element shapes above, or a tuple of element shapes (the
`impl_data!` macro, lines 290-326, generates the tuple impls). -/
inductive SData where
  | elem (e : SystemData)
  | tuple (es : List SystemData)
deriving DecidableEq

/-- `component_permissions` for a wrapper data parameter.  For a tuple the
`impl_data!` macro body (lines 297-306) starts from `Permissions::default()`
and calls `add` with each element permission set in order: a left fold. -/
def SData.component_permissions : SData → Permissions
  | .elem e => e.component_permissions
  | .tuple es => es.foldl (fun a e => a.add e.component_permissions) default

/-- `resource_permissions` for a wrapper data parameter (macro body lines
308-317, the same left fold over `add`). -/
def SData.resource_permissions : SData → Permissions
  | .elem e => e.resource_permissions
  | .tuple es => es.foldl (fun a e => a.add e.resource_permissions) default

/-- `filter_archetypes` for a wrapper data parameter (macro body lines
319-323: destructure the tuple and call each element in order). -/
def SData.filter_archetypes : SData → World → BitSet → BitSet
  | .elem e, world, b => e.filter_archetypes world b
  | .tuple es, world, b => es.foldl (fun b e => e.filter_archetypes world b) b

/-- Which wrapper data parameters actually implement `SystemData` in the
source: the four element impls always do, and tuples only for the arities
the macro is invoked at — `impl_data!(A)` through `impl_data!(A, B, C, D)`
(lines 333-336); the invocations for arities 5 through 26 are commented
out (lines 337-358). -/
def implementsSystemData : SData → Bool
  | .elem _ => true
  | .tuple es => decide (1 ≤ es.length) && decide (es.length ≤ 4)

/-- `SystemAccess` (lines 127-131). -/
structure SystemAccess where
  resources : Permissions
  components : Permissions
deriving DecidableEq

/-- `SystemWrapper` (lines 115-125).  The `command_buffer` HashMap is
modelled as an association list from world identifier to a command-buffer
allocation token; the borrowed `system` reference is modelled as the
abstract state of the wrapped system. -/
structure SystemWrapper where
  name : String
  data : SData
  archetypes : ArchetypeAccess
  access : SystemAccess
  command_buffer : List (Nat × Nat)
  system : Nat
deriving DecidableEq

/-- `SystemWrapper::new` (lines 204-216): name is the literal "test", the
archetype access is always `ArchetypeAccess::Some(BitSet::default())`, the
access pair is computed from the data parameter, and the command-buffer
map starts empty. -/
def SystemWrapper.new (d : SData) (system : Nat) : SystemWrapper :=
  { name := "test"
    data := d
    archetypes := ArchetypeAccess.some ∅
    access :=
      { resources := d.resource_permissions
        components := d.component_permissions }
    command_buffer := []
    system := system }

/-- `Runnable::name` for the wrapper (lines 137-139). -/
def SystemWrapper.runnableName (w : SystemWrapper) : String := w.name

/-- `Runnable::reads` (lines 141-146). -/
def SystemWrapper.reads (w : SystemWrapper) : Finset Identity × Finset Identity :=
  (w.access.resources.reads, w.access.components.reads)

/-- `Runnable::writes` (lines 148-153). -/
def SystemWrapper.writes (w : SystemWrapper) : Finset Identity × Finset Identity :=
  (w.access.resources.writes, w.access.components.writes)

/-- `Runnable::prepare` (lines 155-159): if the archetype access is an
enumerated bitset, pass it to `data.filter_archetypes`. -/
def SystemWrapper.prepare (w : SystemWrapper) (world : World) : SystemWrapper :=
  match w.archetypes with
  | ArchetypeAccess.some bitset =>
      { w with archetypes := ArchetypeAccess.some (w.data.filter_archetypes world bitset) }
  | ArchetypeAccess.all => w

/-- `Runnable::accesses_archetypes` (lines 161-163). -/
def SystemWrapper.accesses_archetypes (w : SystemWrapper) : ArchetypeAccess :=
  w.archetypes

/-- `Runnable::command_buffer_mut` (lines 165-167): a lookup in the
per-world command-buffer map. -/
def SystemWrapper.command_buffer_mut (w : SystemWrapper) (world : Nat) : Option Nat :=
  w.command_buffer.lookup world

/-- `Runnable::run_unsafe` (lines 169-197).  Every statement of the body —
the resource fetch, the `SubWorld` construction, the
`command_buffer.entry(world.id()).or_insert_with(...)` buffer creation and
the `self.system.run(...)` call — is commented out in the source; the
active body is empty, so the wrapper state is returned unchanged. -/
def SystemWrapper.run (w : SystemWrapper) (_world : World) (_resources : Resources) :
    SystemWrapper :=
  w

/-- Modelled from the spec (4.2): the query entity-filter predicate is a
conjunction of has-component clauses, so an archetype matches when it owns
every required component.  The predicate evaluation itself lives in the
external `legion` crate; the wrapper code never calls it. -/
def archetypeMatches (req arch : Finset Identity) : Bool :=
  decide (req ⊆ arch)

/-- Written from the spec words (4.1): a composite declaration returns the
union of each element Permission Set, merging `reads` and `writes` by set
union.  Used to compare the macro-generated fold with the spec. -/
def unionPerms : List Permissions → Permissions
  | [] => default
  | p :: ps => ⟨p.reads ∪ (unionPerms ps).reads, p.writes ∪ (unionPerms ps).writes⟩

/-! ## Helper lemmas -/

/-- No impl overrides the empty default `filter_archetypes`, so filtering
never changes the bitset, for any data shape. -/
theorem filter_archetypes_id (d : SData) (world : World) (b : BitSet) :
    d.filter_archetypes world b = b := by
  cases d with
  | elem e => rfl
  | tuple es =>
      induction es with
      | nil => rfl
      | cons e es ih =>
          simp only [SData.filter_archetypes, SystemData.filter_archetypes,
            List.foldl_cons] at ih ⊢
          exact ih

/-- The macro left fold over `Permissions::add` computes the spec union,
shifted by the accumulator. -/
theorem foldl_add_eq_add_unionPerms (f : SystemData → Permissions)
    (es : List SystemData) (a : Permissions) :
    es.foldl (fun a e => a.add (f e)) a = a.add (unionPerms (es.map f)) := by
  induction es generalizing a with
  | nil =>
      simp [unionPerms, Permissions.add, Inhabited.default]
  | cons e es ih =>
      rw [List.foldl_cons, ih]
      simp [unionPerms, Permissions.add, Finset.union_assoc]

/-- Adding to the default empty permission set is the identity. -/
theorem default_add (p : Permissions) : Permissions.add default p = p := by
  simp [Permissions.add, Inhabited.default]

/-! ## Claim theorems -/

/-- C10: `SystemWrapper::new` hard-codes the name "test" (line 206), so
every adapter reports the name "test" from `name()`, whatever the wrapped
system and data shape are. -/
theorem wrapper_name_is_test (d : SData) (system : Nat) :
    (SystemWrapper.new d system).runnableName = "test" := rfl

/-- C4: the resource permission set of a `Write<T>` declaration is exactly
writes = \x7bT\x7d with an empty read set. -/
theorem write_declaration_permissions (t : Identity) :
    (SystemData.write t).resource_permissions = ⟨∅, {t}⟩ := by
  simp [SystemData.resource_permissions, Permissions.push, Inhabited.default]

/-- C5: the resource permission set of a `Read<T>` declaration is exactly
reads = \x7bT\x7d with an empty write set, and its component permission set
is empty. -/
theorem read_declaration_permissions (t : Identity) :
    (SystemData.read t).resource_permissions = ⟨{t}, ∅⟩ ∧
      (SystemData.read t).component_permissions = ⟨∅, ∅⟩ := by
  constructor
  · simp [SystemData.resource_permissions, Permissions.push_read, Inhabited.default]
  · rfl

/-- C1: the claim says `run_unsafe` fetches resources, constructs the
restricted world view, obtains (creating if absent) the per-world command
buffer, and invokes the wrapped logic.  In the source every one of those
statements is commented out (lines 182-196) and the active body is empty,
so a run leaves the wrapper — in particular its command-buffer map and the
wrapped system state — completely unchanged and invokes nothing. -/
theorem run_leaves_wrapper_unchanged (w : SystemWrapper) (world : World)
    (resources : Resources) :
    w.run world resources = w ∧
      (w.run world resources).command_buffer = w.command_buffer ∧
      (w.run world resources).system = w.system :=
  ⟨rfl, rfl, rfl⟩

/-- C2 counterexample: a system declaring `Read` and `Write` of the same
identity (here 7) as independent siblings is NOT rejected at registration:
`SystemWrapper::new` (lines 204-216) has no error path and no
`DeclarationConflict` exists anywhere in the source, so the adapter is
constructed, carrying identity 7 in both the read set and the write set of
its resource permissions. -/
theorem read_write_conflict_is_registered :
    (SystemWrapper.new
        (SData.tuple [SystemData.read 7, SystemData.write 7]) 0).access.resources =
      ⟨{7}, {7}⟩ := by
  decide

/-- C2 amended: for every identity T, a system declaring both Read(T) and
Write(T) as independent siblings is registered unconditionally (adapter
construction cannot fail), and the composed resource permission set lists T
in both `reads` and `writes`. -/
theorem read_write_conflict_registration (t system : Nat) :
    (SystemWrapper.new
        (SData.tuple [SystemData.read t, SystemData.write t]) system).access.resources =
      ⟨{t}, {t}⟩ := by
  simp [SystemWrapper.new, SData.resource_permissions, SystemData.resource_permissions,
    Permissions.add, Permissions.push, Permissions.push_read, Inhabited.default]

/-- C3: the claim says `prepare(world)` recomputes the archetype filter so
that an archetype matching the query predicate is included in the bitset
afterwards.  Concretely: a system with a query requiring component 0, on a
world whose only archetype (index 0) owns component 0, has a matching
archetype — yet after `prepare` the bitset reported by
`accessed_archetypes()` is still empty, because `filter_archetypes` is the
empty trait default for every impl (the `Query` impl never overrides it). -/
theorem prepare_misses_matching_archetype :
    archetypeMatches ({0} : Finset Identity) ({0} : Finset Identity) = true ∧
      ((SystemWrapper.new (SData.elem (SystemData.query default {0})) 0).prepare
          ⟨0, [{0}]⟩).accesses_archetypes = ArchetypeAccess.some ∅ := by
  constructor
  · decide
  · rfl

/-- C6: for two declarations with disjoint identities, the permissions of
their tuple composition are the plain unions of the element read and write
sets, composition is commutative (swapping the tuple elements yields the
same permission sets), and `Permissions::add` is associative and
commutative. -/
theorem disjoint_composition_union (e1 e2 : SystemData) (p q r : Permissions)
    (h : e1.identities ∩ e2.identities = ∅) :
    (SData.tuple [e1, e2]).resource_permissions =
        ⟨e1.resource_permissions.reads ∪ e2.resource_permissions.reads,
          e1.resource_permissions.writes ∪ e2.resource_permissions.writes⟩ ∧
      (SData.tuple [e1, e2]).component_permissions =
        ⟨e1.component_permissions.reads ∪ e2.component_permissions.reads,
          e1.component_permissions.writes ∪ e2.component_permissions.writes⟩ ∧
      (SData.tuple [e1, e2]).resource_permissions =
        (SData.tuple [e2, e1]).resource_permissions ∧
      (SData.tuple [e1, e2]).component_permissions =
        (SData.tuple [e2, e1]).component_permissions ∧
      (p.add q).add r = p.add (q.add r) ∧
      p.add q = q.add p := by
  refine ⟨?_, ?_, ?_, ?_, ?_, ?_⟩
  · simp [SData.resource_permissions, Permissions.add, Inhabited.default]
  · simp [SData.component_permissions, Permissions.add, Inhabited.default]
  · simp [SData.resource_permissions, Permissions.add, Inhabited.default,
      Finset.union_comm]
  · simp [SData.component_permissions, Permissions.add, Inhabited.default,
      Finset.union_comm]
  · simp [Permissions.add, Finset.union_assoc]
  · simp [Permissions.add, Finset.union_comm]

/-- C6 witness: the composition of Read(0) and Write(1) — disjoint
identities — evaluated concretely. -/
theorem disjoint_composition_union_witness :
    (SystemData.read 0).identities ∩ (SystemData.write 1).identities = ∅ ∧
      ((SData.tuple [SystemData.read 0, SystemData.write 1]).resource_permissions =
          ⟨(SystemData.read 0).resource_permissions.reads ∪
              (SystemData.write 1).resource_permissions.reads,
            (SystemData.read 0).resource_permissions.writes ∪
              (SystemData.write 1).resource_permissions.writes⟩ ∧
        (SData.tuple [SystemData.read 0, SystemData.write 1]).component_permissions =
          ⟨(SystemData.read 0).component_permissions.reads ∪
              (SystemData.write 1).component_permissions.reads,
            (SystemData.read 0).component_permissions.writes ∪
              (SystemData.write 1).component_permissions.writes⟩ ∧
        (SData.tuple [SystemData.read 0, SystemData.write 1]).resource_permissions =
          (SData.tuple [SystemData.write 1, SystemData.read 0]).resource_permissions ∧
        (SData.tuple [SystemData.read 0, SystemData.write 1]).component_permissions =
          (SData.tuple [SystemData.write 1, SystemData.read 0]).component_permissions ∧
        (Permissions.add (Permissions.add ⟨{0}, ∅⟩ ⟨{1}, ∅⟩) ⟨∅, {2}⟩) =
          Permissions.add ⟨{0}, ∅⟩ (Permissions.add ⟨{1}, ∅⟩ ⟨∅, {2}⟩) ∧
        Permissions.add ⟨{0}, ∅⟩ ⟨{1}, ∅⟩ = Permissions.add ⟨{1}, ∅⟩ ⟨{0}, ∅⟩) :=
  ⟨by decide,
    disjoint_composition_union (SystemData.read 0) (SystemData.write 1)
      ⟨{0}, ∅⟩ ⟨{1}, ∅⟩ ⟨∅, {2}⟩ (by decide)⟩

/-- C7 counterexample: a tuple of five `SystemData` elements does not
implement `SystemData` — the `impl_data!` invocations stop at arity 4
(arities 5 through 26 are commented out, lines 337-358), so the claim
"for every arity n" fails at n = 5. -/
theorem five_tuple_not_system_data :
    implementsSystemData (SData.tuple
      [SystemData.unit, SystemData.unit, SystemData.unit,
        SystemData.unit, SystemData.unit]) = false := by
  decide

/-- C7 amended: for every arity n with 1 ≤ n ≤ 4, a tuple of n
`SystemData` elements implements `SystemData`, its permission sets are the
fold (union) of the element permission sets as specified, and its archetype
filter is the composition of the element filters (each the default no-op,
so the bitset is returned unchanged). -/
theorem tuple_composition_arity_le_four (es : List SystemData) (world : World)
    (b : BitSet) (h1 : 1 ≤ es.length) (h2 : es.length ≤ 4) :
    implementsSystemData (SData.tuple es) = true ∧
      (SData.tuple es).resource_permissions =
        unionPerms (es.map SystemData.resource_permissions) ∧
      (SData.tuple es).component_permissions =
        unionPerms (es.map SystemData.component_permissions) ∧
      (SData.tuple es).filter_archetypes world b = b := by
  refine ⟨?_, ?_, ?_, ?_⟩
  · simp [implementsSystemData, h1, h2]
  · rw [show (SData.tuple es).resource_permissions =
        es.foldl (fun a e => a.add e.resource_permissions) default from rfl,
      foldl_add_eq_add_unionPerms SystemData.resource_permissions es default,
      default_add]
  · rw [show (SData.tuple es).component_permissions =
        es.foldl (fun a e => a.add e.component_permissions) default from rfl,
      foldl_add_eq_add_unionPerms SystemData.component_permissions es default,
      default_add]
  · exact filter_archetypes_id _ world b

/-- C7 witness: the two-element tuple (Read(0), Write(1)) evaluated
concretely. -/
theorem tuple_composition_arity_le_four_witness :
    (1 ≤ [SystemData.read 0, SystemData.write 1].length ∧
        [SystemData.read 0, SystemData.write 1].length ≤ 4) ∧
      (implementsSystemData (SData.tuple [SystemData.read 0, SystemData.write 1]) = true ∧
        (SData.tuple [SystemData.read 0, SystemData.write 1]).resource_permissions =
          unionPerms ([SystemData.read 0, SystemData.write 1].map
            SystemData.resource_permissions) ∧
        (SData.tuple [SystemData.read 0, SystemData.write 1]).component_permissions =
          unionPerms ([SystemData.read 0, SystemData.write 1].map
            SystemData.component_permissions) ∧
        (SData.tuple [SystemData.read 0, SystemData.write 1]).filter_archetypes
          ⟨0, []⟩ ∅ = ∅) :=
  ⟨⟨by decide, by decide⟩,
    tuple_composition_arity_le_four [SystemData.read 0, SystemData.write 1]
      ⟨0, []⟩ ∅ (by decide) (by decide)⟩

/-- C8 counterexample: a resource-only system (declaration Read(5), no
component clauses) does NOT get the `ArchetypeAccess::All` sentinel:
`SystemWrapper::new` unconditionally sets
`ArchetypeAccess::Some(BitSet::default())` (line 208), so
`accesses_archetypes()` reports an enumerated (empty) bitset, not `All`. -/
theorem resource_only_system_gets_bitset :
    (SystemWrapper.new (SData.elem (SystemData.read 5)) 0).accesses_archetypes =
        ArchetypeAccess.some ∅ ∧
      (SystemWrapper.new (SData.elem (SystemData.read 5)) 0).accesses_archetypes ≠
        ArchetypeAccess.all := by
  constructor
  · rfl
  · decide

/-- C8 amended: every adapter, whatever its declaration — including
resource-only systems with an empty entity-matching predicate — is
constructed with the enumerated bitset `ArchetypeAccess::Some(∅)`; the
`All` sentinel is never produced. -/
theorem new_always_enumerated_bitset (d : SData) (system : Nat) :
    (SystemWrapper.new d system).archetypes = ArchetypeAccess.some ∅ ∧
      (SystemWrapper.new d system).accesses_archetypes = ArchetypeAccess.some ∅ :=
  ⟨rfl, rfl⟩

/-- C9: the claim says the per-world command buffer is created lazily on
the first execution and that `command_buffer_mut(world)` returns it after
the first run.  In the source the creation
(`command_buffer.entry(world.id()).or_insert_with(...)`, lines 189-192) is
commented out, so even after two consecutive runs against the same world
the map is still empty and `command_buffer_mut` returns `None`. -/
theorem command_buffer_never_created :
    (((SystemWrapper.new (SData.elem SystemData.unit) 0).run ⟨0, []⟩ []).run
        ⟨0, []⟩ []).command_buffer_mut 0 = none := rfl
